import Mathlib

set_option maxHeartbeats 1000000

/-!
Shallow embedding of the quota-bounded acquisition and classification engine
of main.py (cartografia-streaming-argentino): QuotaTracker, APICache,
YouTubeClient credential rotation, StreamingDetector, ArgentineDetector,
DataManager seen-set and the StreamingArgentinaEngine search-term loop,
together with theorems settling the frozen claims about them.

Python strings are modelled as List Char; Python lowercasing and the \w /
\s / \d character classes of the re module are modelled over the alphabet
that actually occurs in the lexicons and inputs (ASCII plus the accented
Spanish letters).
-/

namespace StreamingArg

/-- Python str.lower restricted to ASCII and the accented Spanish capitals. -/
def pyLowerChar (c : Char) : Char :=
  if 65 ≤ c.toNat ∧ c.toNat ≤ 90 then Char.ofNat (c.toNat + 32)
  else if c = 'Á' then 'á' else if c = 'É' then 'é' else if c = 'Í' then 'í'
  else if c = 'Ó' then 'ó' else if c = 'Ú' then 'ú' else if c = 'Ñ' then 'ñ'
  else if c = 'Ü' then 'ü' else c

/-- Lowercased character list of a Python string (text.lower()). -/
def pyLower (s : String) : List Char := s.toList.map pyLowerChar

/-- Accented letters counted as word characters by re's Unicode \w. -/
def spanishLetters : List Char :=
  ['á', 'é', 'í', 'ó', 'ú', 'ñ', 'ü', 'Á', 'É', 'Í', 'Ó', 'Ú', 'Ñ', 'Ü']

/-- The re module word character class \w over our alphabet. -/
def isWordChar (c : Char) : Bool :=
  c.isAlphanum || c == '_' || spanishLetters.contains c

/-- List-of-chars prefix test. -/
def isPrefixL : List Char → List Char → Bool
  | [], _ => true
  | _ :: _, [] => false
  | a :: as, b :: bs => a == b && isPrefixL as bs

/-- Python substring containment (needle in hay). -/
def isSubstrL (needle : List Char) : List Char → Bool
  | [] => isPrefixL needle []
  | c :: rest => isPrefixL needle (c :: rest) || isSubstrL needle rest

/-- Python substring containment for a literal term in a lowered text. -/
def containsPy (term : String) (low : List Char) : Bool :=
  isSubstrL term.toList low

/-- Strip a literal from the front, returning the remainder on success. -/
def stripLit : List Char → List Char → Option (List Char)
  | [], cs => some cs
  | _ :: _, [] => none
  | n :: ns, c :: cs => if n == c then stripLit ns cs else none

/-- re.search of an anchored matcher: does it match at some position. -/
def anySuffix (p : List Char → Bool) : List Char → Bool
  | [] => p []
  | c :: rest => p (c :: rest) || anySuffix p rest

/-- The re whitespace class \s (ASCII part). -/
def isPyWs (c : Char) : Bool :=
  c == ' ' || c == '\t' || c == '\n' || c == '\r' ||
  c == Char.ofNat 11 || c == Char.ofNat 12

/-- Greedy \s* (no following atom of ours starts with whitespace). -/
def dropWs (cs : List Char) : List Char := cs.dropWhile isPyWs

/-- Greedy \s+ (at least one whitespace character). -/
def stripWs1 : List Char → Option (List Char)
  | [] => none
  | c :: rest => if isPyWs c then some (dropWs rest) else none

/-- Greedy \d+ (at least one digit). -/
def stripDigits1 : List Char → Option (List Char)
  | [] => none
  | c :: rest => if c.isDigit then some (rest.dropWhile Char.isDigit) else none

/-- The regex fragment .* followed by a continuation (DOTALL off: no newline). -/
def dotStarThen (q : List Char → Bool) : List Char → Bool
  | [] => q []
  | c :: rest => q (c :: rest) || (!(c == '\n') && dotStarThen q rest)

/-- A word boundary sits before the remainder (end of text or non-word char). -/
def boundaryOk : List Char → Bool
  | [] => true
  | c :: _ => !isWordChar c

/-- Anchored match of the regex \b{lit}\b for a literal made of word chars:
the previous character (tracked as prevW) must not be a word character and
the character after the literal must not be one either. -/
def wbMatchAt (needle : List Char) (prevW : Bool) (cs : List Char) : Bool :=
  !prevW &&
    (match stripLit needle cs with
     | some rest => boundaryOk rest
     | none => false)

/-- Scan of re.search for \b{lit}\b, tracking wordness of the previous char. -/
def wbContainsAux (needle : List Char) : Bool → List Char → Bool
  | prevW, [] => wbMatchAt needle prevW []
  | prevW, c :: rest =>
      wbMatchAt needle prevW (c :: rest) || wbContainsAux needle (isWordChar c) rest

/-- re.search(rf"\b{lit}\b", hay) for a word-character literal. -/
def wbContains (needle hay : List Char) : Bool := wbContainsAux needle false hay

/-- Alternation (w1|w2|...) followed by a continuation, with backtracking
across the alternatives in their written order. -/
def stripAltThen (words : List (List Char)) (k : List Char → Option (List Char))
    (cs : List Char) : Option (List Char) :=
  match words with
  | [] => none
  | w :: ws =>
    match stripLit w cs with
    | some rest =>
      match k rest with
      | some r2 => some r2
      | none => stripAltThen ws k cs
    | none => stripAltThen ws k cs

/-- Wordness of the character immediately before the continuation point
after consuming a chunk (used to restart a findall scan). -/
def lastWordness (chunk : List Char) (prevW : Bool) : Bool :=
  match chunk.getLast? with
  | some c => isWordChar c
  | none => prevW

/-- re.findall counting: scan left to right, count non-overlapping matches
of an anchored matcher that is given the wordness of the previous char. -/
def countPatAux (pat : Bool → List Char → Option (List Char)) :
    Nat → Bool → List Char → Nat
  | 0, _, _ => 0
  | _ + 1, _, [] => 0
  | fuel + 1, prevW, c :: rest =>
    match pat prevW (c :: rest) with
    | some r =>
      let consumed := (c :: rest).length - r.length
      1 + countPatAux pat fuel (lastWordness ((c :: rest).take consumed) prevW) r
    | none => countPatAux pat fuel (isWordChar c) rest

/-- Number of re.findall matches of an anchored matcher in a text. -/
def countPat (pat : Bool → List Char → Option (List Char)) (cs : List Char) : Nat :=
  countPatAux pat (cs.length + 1) false cs

/-! Config: the constants of class Config in main.py. -/

def MAX_DAILY_QUOTA : Nat := 20000

def SAFETY_BUFFER : Nat := 2000

def QUOTA_WARNING_THRESHOLD : Nat := 16000

def COST_SEARCH : Nat := 100

def COST_CHANNEL_DETAILS : Nat := 3

def COST_VIDEO_LIST : Nat := 3

def MIN_SUBSCRIBERS : Nat := 500

def MIN_CERTAINTY_ARGENTINA : ℚ := 75

/-- Config.PROVINCIAS_ARGENTINAS. The source stores these in a Python set
whose iteration order is unspecified; we fix the written order (none of the
proved claims depends on which matching province is reported first). -/
def PROVINCIAS_ARGENTINAS : List String :=
  ["Buenos Aires", "CABA", "Córdoba", "Santa Fe", "Mendoza", "Tucumán",
   "Salta", "Entre Ríos", "Misiones", "Chaco", "Corrientes",
   "Santiago del Estero", "Jujuy", "Neuquén", "Río Negro",
   "Formosa", "Chubut", "San Luis", "Catamarca", "La Rioja",
   "San Juan", "Santa Cruz", "Tierra del Fuego", "La Pampa"]

/-- Config.CODIGOS_ARGENTINOS in dict insertion order. -/
def CODIGOS_ARGENTINOS : List (String × String) :=
  [("MZA", "Mendoza"), ("COR", "Córdoba"), ("ROS", "Santa Fe"),
   ("MDQ", "Buenos Aires"), ("BRC", "Río Negro"), ("SLA", "Salta"),
   ("TUC", "Tucumán"), ("NQN", "Neuquén"), ("USH", "Tierra del Fuego"),
   ("JUJ", "Jujuy"), ("SFN", "Santa Fe"), ("CTC", "Catamarca"),
   ("LRJ", "La Rioja"), ("FSA", "Formosa"), ("SGO", "Santiago del Estero")]

/-! ArgentineDetector lexicons (_setup_patterns). -/

/-- Alternation words of the first voseo pattern. -/
def voseoVerbs1 : List String :=
  ["tenés", "sabés", "querés", "podés", "andás", "venís", "hacés", "decís",
   "sos", "estás"]

/-- Alternation words of the second voseo pattern. -/
def voseoVerbs2 : List String :=
  ["tenés", "sabés", "querés", "podés", "andás", "venís", "hacés", "decís"]

/-- self.argentine_slang (a Python set; only its count of hits is used). -/
def argentine_slang : List String :=
  ["che", "boludo", "gil", "loco", "flaco", "capo", "crack",
   "bárbaro", "copado", "zarpado", "piola", "groso", "genial",
   "laburo", "guita", "mango", "luca", "palo",
   "bondi", "colectivo", "subte", "boliche", "joda",
   "quilombo", "bardo", "pucho", "faso", "birra",
   "pibe", "piba", "pendejo", "wacho", "chabón"]

/-- self.argentine_culture (a Python set; only its count of hits is used). -/
def argentine_culture : List String :=
  ["mate", "asado", "empanadas", "choripán", "milanesas",
   "alfajores", "dulce de leche", "facturas", "medialunas",
   "boca", "river", "racing", "independiente", "san lorenzo",
   "maradona", "messi", "gardel", "tango", "folklore",
   "cuarteto", "cumbia", "rock nacional", "charly garcía"]

/-- self.country_exclusions in dict insertion order. -/
def country_exclusions : List (String × List String) :=
  [("españa", ["españa", "español", "madrid", "barcelona", "valencia"]),
   ("mexico", ["méxico", "mexicano", "cdmx", "guadalajara", "monterrey"]),
   ("chile", ["chile", "chileno", "santiago de chile", "valparaíso"]),
   ("colombia", ["colombia", "colombiano", "bogotá", "medellín", "cali"]),
   ("peru", ["perú", "peruano", "lima", "cusco", "arequipa"]),
   ("uruguay", ["uruguay", "uruguayo", "montevideo", "punta del este"]),
   ("venezuela", ["venezuela", "venezolano", "caracas", "maracaibo"]),
   ("ecuador", ["ecuador", "ecuatoriano", "quito", "guayaquil"]),
   ("paraguay", ["paraguay", "paraguayo", "asunción", "ciudad del este"]),
   ("bolivia", ["bolivia", "boliviano", "la paz", "santa cruz de la sierra"])]

/-- Direct Argentina mentions checked by detect_explicit_argentina. -/
def argentina_mentions : List String :=
  ["argentina", "argentino", "argentinos", "argentinas", "arg 🇦🇷"]

/-! Anchored matchers for the four voseo regex patterns. The leading \b is
the prevW check (all patterns start with a word character); the trailing \b
is the boundaryOk check. Alternation words are tried in written order with
backtracking; the char classes at each junction are disjoint, so greedy
\s+ matches exactly what the re engine matches. -/

/-- Pattern 1: \bvos\s+(?:tenés|sabés|querés|podés|andás|venís|hacés|decís|sos|estás)\b -/
def voseoP1 (prevW : Bool) (cs : List Char) : Option (List Char) :=
  if prevW then none else
  (stripLit "vos".toList cs).bind fun r1 =>
  (stripWs1 r1).bind fun r2 =>
  stripAltThen (voseoVerbs1.map String.toList)
    (fun r3 => if boundaryOk r3 then some r3 else none) r2

/-- Pattern 2: \b(?:tenés|sabés|querés|podés|andás|venís|hacés|decís)\s+vos\b -/
def voseoP2 (prevW : Bool) (cs : List Char) : Option (List Char) :=
  if prevW then none else
  stripAltThen (voseoVerbs2.map String.toList)
    (fun r1 =>
      (stripWs1 r1).bind fun r2 =>
      (stripLit "vos".toList r2).bind fun r3 =>
      if boundaryOk r3 then some r3 else none) cs

/-- Pattern 3: \bche\s+vos\b -/
def voseoP3 (prevW : Bool) (cs : List Char) : Option (List Char) :=
  if prevW then none else
  (stripLit "che".toList cs).bind fun r1 =>
  (stripWs1 r1).bind fun r2 =>
  (stripLit "vos".toList r2).bind fun r3 =>
  if boundaryOk r3 then some r3 else none

/-- Pattern 4: \bvos\s+che\b -/
def voseoP4 (prevW : Bool) (cs : List Char) : Option (List Char) :=
  if prevW then none else
  (stripLit "vos".toList cs).bind fun r1 =>
  (stripWs1 r1).bind fun r2 =>
  (stripLit "che".toList r2).bind fun r3 =>
  if boundaryOk r3 then some r3 else none

/-- Total number of voseo regex matches found in the lowered text
(sum of the findall counts of the four voseo patterns). -/
def voseoCount (low : List Char) : Nat :=
  countPat voseoP1 low + countPat voseoP2 low +
  countPat voseoP3 low + countPat voseoP4 low

/-- Slang terms found (substring containment, as in the source). -/
def slangFound (low : List Char) : List String :=
  argentine_slang.filter (fun w => containsPy w low)

/-- Cultural terms found (substring containment, as in the source). -/
def cultureFound (low : List Char) : List String :=
  argentine_culture.filter (fun w => containsPy w low)

/-- Anchored matcher for the regex \d+\s*hs. -/
def hsPatAt : List Char → Bool
  | [] => false
  | c :: rest =>
      c.isDigit &&
      (stripLit "hs".toList (dropWs (rest.dropWhile Char.isDigit))).isSome

/-- Which of the argentine_time_patterns regexes match the lowered text:
\d+\s*hs, hora argentina, ART, UTC-3, buenos aires time, argentina time.
The last uppercase two are searched case-sensitively in an already lowered
text, exactly as the source does. -/
def timeMatches (low : List Char) : Nat :=
  ([anySuffix hsPatAt low,
    containsPy "hora argentina" low,
    containsPy "ART" low,
    containsPy "UTC-3" low,
    containsPy "buenos aires time" low,
    containsPy "argentina time" low].filter (fun b => b)).length

/-! Data model: entity snapshots as returned by the upstream API.
Dates are modelled as an age in days (publishedAgeDays, none when the
publishedAt snippet field is empty or missing); numeric statistics fields
are the int(...) conversions the source applies. -/

/-- A video item as used by the detector and streaming checks. -/
structure Video where
  title : String
  description : String
  deriving Repr, DecidableEq

/-- A channel detail snapshot (snippet + statistics fields the source reads).
hasStreaming is the has_streaming key, absent until get_channel_details
stores it. -/
structure Channel where
  id : Option String
  title : String
  description : String
  country : String
  publishedAgeDays : Option Nat
  subscriberCount : Nat
  viewCount : Nat
  videoCount : Nat
  hasStreaming : Option Bool
  deriving Repr, DecidableEq

/-! ArgentineDetector. Confidences are rationals (Python floats whose values
here are always exactly representable: integers and halves). -/

/-- Result dict of detect_explicit_argentina. -/
structure ExplicitResult where
  method : String
  confidence : ℚ
  province : Option String
  indicators : List String
  deriving Repr, DecidableEq

/-- Result dict of detect_other_countries. -/
structure ExclusionResult where
  method : String
  confidence : ℚ
  country : String
  indicators : List String
  deriving Repr, DecidableEq

/-- Result dict of analyze_cultural_patterns. -/
structure CulturalResult where
  method : String
  is_argentine : Bool
  confidence : ℚ
  score : Nat
  indicators : List String
  deriving Repr, DecidableEq

/-- Result dict of ArgentineDetector.analyze_channel (union of the shapes
returned on its four paths; fields absent on a path are none). -/
structure AnalysisResult where
  is_argentine : Bool
  confidence : ℚ
  method : String
  indicators : List String
  province : Option String
  reason : Option String
  score : Option Nat
  deriving Repr, DecidableEq

/-- ArgentineDetector.detect_explicit_argentina. -/
def detect_explicit_argentina (text : String) : Option ExplicitResult :=
  let low := pyLower text
  match argentina_mentions.find? (fun m => containsPy m low) with
  | some m =>
      some { method := "explicit_country", confidence := 95, province := none,
             indicators := ["menciona_" ++ m] }
  | none =>
  match CODIGOS_ARGENTINOS.find? (fun p => wbContains (pyLower p.1) low) with
  | some (code, prov) =>
      some { method := "local_code", confidence := 92, province := some prov,
             indicators := ["codigo_" ++ code] }
  | none =>
  match PROVINCIAS_ARGENTINAS.find? (fun p => isSubstrL (pyLower p) low) with
  | some prov =>
      some { method := "province_mention", confidence := 88, province := some prov,
             indicators := ["provincia_" ++ prov] }
  | none => none

/-- One iteration of the detect_other_countries loop: the exclusion result
for a single (country, indicators) pair, none when no indicator is
contained in the lowered text. -/
def exclResultFor (low : List Char) (p : String × List String) :
    Option ExclusionResult :=
  let ms := p.2.filter (fun ind => containsPy ind low)
  if ms.isEmpty then none
  else some { method := "other_country", confidence := 90, country := p.1,
              indicators := ms }

/-- ArgentineDetector.detect_other_countries: first country (in dict order)
with at least one indicator contained in the lowered text. -/
def detect_other_countries (text : String) : Option ExclusionResult :=
  (country_exclusions.filterMap (exclResultFor (pyLower text))).head?

/-- Total number of exclusion-lexicon indicators (over all countries)
contained in the text; at least one makes detect_other_countries fire. -/
def exclusionHitCount (text : String) : Nat :=
  (country_exclusions.map
    (fun p => (p.2.filter (fun ind => containsPy ind (pyLower text))).length)).sum

/-- ArgentineDetector.analyze_cultural_patterns. -/
def analyze_cultural_patterns (text : String) : CulturalResult :=
  let low := pyLower text
  let v := voseoCount low
  let sl := (slangFound low).length
  let cu := (cultureFound low).length
  let tm := timeMatches low
  let score := v * 20 + sl * 10 + cu * 8 + tm * 15
  let confidence : ℚ := min 95 ((score : ℚ) * 3 / 2)
  { method := "cultural_patterns",
    is_argentine := MIN_CERTAINTY_ARGENTINA ≤ confidence,
    confidence := confidence,
    score := score,
    indicators :=
      (if v ≠ 0 then ["voseo_" ++ toString v] else []) ++
      (if sl ≠ 0 then ["jerga_" ++ toString sl] else []) ++
      (if cu ≠ 0 then ["cultura_" ++ toString cu] else []) ++
      (if tm ≠ 0 then ["horarios_" ++ toString tm] else []) }

/-- The region table of detect_region (name, indicators, weight). -/
def regionsTable : List (String × List String × ℚ) :=
  [("Buenos Aires", ["caba", "capital federal", "porteño", "bonaerense", "la plata"], 12 / 10),
   ("Córdoba", ["córdoba", "cordobés", "fernet", "cuarteto", "la docta"], 11 / 10),
   ("Mendoza", ["mendoza", "mendocino", "mza", "vino", "vendimia", "aconcagua"], 11 / 10),
   ("Santa Fe", ["rosario", "santafesino", "ros", "paraná"], 1),
   ("Patagonia", ["bariloche", "patagonia", "neuquén", "ushuaia", "calafate"], 1)]

/-- ArgentineDetector.detect_region: arg-max of weight * hit-count over the
region table (strictly-greater updates keep the first maximum), returning
the best region and the confidence boost min(10, best_score * 5). -/
def detect_region (text : String) : String × ℚ :=
  let low := pyLower text
  let best := regionsTable.foldl
    (fun best r =>
      let score : ℚ := (r.2.1.filter (fun ind => containsPy ind low)).length * r.2.2
      if best.2 < score then (r.1, score) else best)
    ("Argentina", 0)
  (best.1, min 10 (best.2 * 5))

/-- The full_text assembled by ArgentineDetector.analyze_channel:
title, description and country of the channel, then title and the first
200 description characters of the first 10 videos, joined by spaces. -/
def buildFullText (ch : Channel) (videos : List Video) : String :=
  String.intercalate " "
    ([ch.title, ch.description, ch.country] ++
     (videos.take 10).flatMap
       (fun v => [v.title, String.mk (v.description.toList.take 200)]))

/-- Steps 2 to 4 of ArgentineDetector.analyze_channel (the fall-through
after the country-exclusion gate): explicit detection, cultural patterns,
insufficient evidence. -/
def analyzeTextRest (t : String) : AnalysisResult :=
  match detect_explicit_argentina t with
    | some e =>
      let rb := detect_region t
      { is_argentine := true, confidence := min 100 (e.confidence + rb.2),
        method := e.method, indicators := e.indicators,
        province := some (e.province.getD rb.1), reason := none, score := none }
    | none =>
      let cultural := analyze_cultural_patterns t
      if cultural.is_argentine then
        let rb := detect_region t
        { is_argentine := true, confidence := min 100 (cultural.confidence + rb.2),
          method := cultural.method, indicators := cultural.indicators,
          province := some rb.1, reason := none, score := some cultural.score }
      else
        { is_argentine := false, confidence := cultural.confidence,
          reason := some "Evidencia insuficiente",
          method := "insufficient_evidence", indicators := cultural.indicators,
          province := none, score := none }

/-- The detector cascade of ArgentineDetector.analyze_channel applied to the
assembled full text (step 1, the country-exclusion gate, then the
fall-through analyzeTextRest). -/
def analyzeText (t : String) : AnalysisResult :=
  match detect_other_countries t with
  | some oc =>
    if 80 < oc.confidence then
      { is_argentine := false, confidence := 0,
        reason := some ("Canal de " ++ oc.country),
        method := "country_exclusion", indicators := oc.indicators,
        province := none, score := none }
    else analyzeTextRest t
  | none => analyzeTextRest t

/-- ArgentineDetector.analyze_channel. -/
def detectorAnalyzeChannel (ch : Channel) (videos : List Video) : AnalysisResult :=
  analyzeText (buildFullText ch videos)

/-! QuotaTracker. can_use_quota and use_quota read Config.MAX_DAILY_QUOTA and
Config.SAFETY_BUFFER; we parametrise over the two constants (canUseQuotaP,
useQuotaP) and instantiate at the Config values (can_use_quota, use_quota).
use_quota increments used_quota, persists it, and then raises when the new
usage reaches the effective limit; it is modelled as (new used_quota,
whether it raised). -/

/-- QuotaTracker.can_use_quota with explicit limit and buffer. -/
def canUseQuotaP (maxQuota buffer used cost : Nat) : Bool :=
  used + cost ≤ maxQuota - buffer

/-- QuotaTracker.use_quota with explicit limit and buffer: returns the new
used_quota (incremented first, as in the source) and whether the
quota-exhausted exception was raised. -/
def useQuotaP (maxQuota buffer used cost : Nat) : Nat × Bool :=
  let u := used + cost
  (u, maxQuota - buffer ≤ u)

/-- QuotaTracker.can_use_quota at the Config constants. -/
def can_use_quota (used cost : Nat) : Bool :=
  canUseQuotaP MAX_DAILY_QUOTA SAFETY_BUFFER used cost

/-- QuotaTracker.use_quota at the Config constants. -/
def use_quota (used cost : Nat) : Nat × Bool :=
  useQuotaP MAX_DAILY_QUOTA SAFETY_BUFFER used cost

/-! YouTubeClient. The client state carries the rotation index, the one-way
all_apis_exhausted flag, the QuotaTracker usage, the two (key-disjoint)
namespaces of the shared APICache, and an instrumentation counter of
underlying API invocations (network calls). The upstream API is a function
of the active key index, so rotation can change its answer. -/

/-- One search() result item; channelId models
channel.get(id, dict()).get(channelId) of the search response. -/
structure SearchItem where
  channelId : Option String
  deriving Repr, DecidableEq

/-- One page of a channel search response. -/
structure SearchResp where
  items : List SearchItem
  nextPageToken : Option String
  deriving Repr, DecidableEq

/-- Outcome of one underlying API execute() on the active key. -/
inductive ApiOut (α : Type) where
  | ok (v : α)
  | quotaErr
  | httpErr
  deriving Repr, DecidableEq

/-- Result of _call_with_rotation: success, the all-credentials-exhausted
exception, or a propagated non-quota HttpError. -/
inductive CallRes (α : Type) where
  | ok (v : α)
  | allExhausted
  | httpErr
  deriving Repr, DecidableEq

/-- Client + tracker + cache state. calls counts underlying API invocations
(instrumentation; not a field of the source object). -/
structure St where
  keyIndex : Nat
  exhausted : Bool
  used : Nat
  chanCache : List (String × Nat × Channel)
  searchCache : List (String × Nat × SearchResp)
  calls : Nat
  deriving Repr, DecidableEq

/-- The upstream API surface consumed by the client, per key index. -/
structure Upstream where
  searchPage : Nat → Option String → ApiOut SearchResp
  detail : Nat → String → ApiOut (List Channel)
  liveSearch : Nat → String → String → ApiOut (List Video)
  broadcast : Nat → String → ApiOut (List Video)
  recent : Nat → String → ApiOut (List Video)

/-- YouTubeClient._rotate_key for a client with n keys. -/
def rotateKey (n : Nat) (s : St) : Bool × St :=
  if s.keyIndex + 1 < n then (true, { s with keyIndex := s.keyIndex + 1 })
  else (false, s)

/-- The while loop of _call_with_rotation; the fuel is
max_attempts - attempts, which starts at n and decreases exactly on each
successful rotation. Exhausting the fuel hits the post-loop code that also
sets all_apis_exhausted and raises. -/
def callRotAux (n : Nat) (beh : Nat → ApiOut α) : Nat → St → CallRes α × St
  | 0, s => (.allExhausted, { s with exhausted := true })
  | fuel + 1, s =>
    let s1 := { s with calls := s.calls + 1 }
    match beh s.keyIndex with
    | .ok v => (.ok v, s1)
    | .httpErr => (.httpErr, s1)
    | .quotaErr =>
      match rotateKey n s1 with
      | (true, s2) => callRotAux n beh fuel s2
      | (false, s2) => (.allExhausted, { s2 with exhausted := true })

/-- YouTubeClient._call_with_rotation. -/
def call_with_rotation (n : Nat) (beh : Nat → ApiOut α) (s : St) : CallRes α × St :=
  if s.exhausted then (.allExhausted, s) else callRotAux n beh n s

/-- YouTubeClient.can_make_request. -/
def can_make_request (s : St) (cost : Nat) : Bool := can_use_quota s.used cost

/-- quota_tracker.use_quota threaded through the client state. -/
def stUseQuota (s : St) (cost : Nat) : St × Bool :=
  let r := use_quota s.used cost
  ({ s with used := r.1 }, r.2)

/-- The TTL of APICache entries (7 days in seconds). -/
def CACHE_TTL : Nat := 604800

/-- APICache.get: a stored entry is served while now - stored < TTL,
otherwise it is logically absent. -/
def cacheLookup (cache : List (String × Nat × α)) (now : Nat) (key : String) :
    Option α :=
  match cache.find? (fun e => e.1 == key) with
  | some (_, ts, v) => if now - ts < CACHE_TTL then some v else none
  | none => none

/-! StreamingDetector: the five-way streaming capability check.
The two API-based sub-checks thread the client state; the three text-based
sub-checks are pure. Exceptions are modelled exactly as the source catches
them: the all-credentials-exhausted exception yields score 0 of that
sub-check, any other exception ends the sub-check with the score collected
so far (0 for the broadcast check). -/

/-- Anchored match of the regex \d+:\d+. -/
def digColonDigAt : List Char → Bool
  | [] => false
  | c :: rest =>
      c.isDigit &&
      (match rest.dropWhile Char.isDigit with
       | ':' :: d :: _ => d.isDigit
       | _ => false)

/-- Is the remainder headed by a digit (the continuation for ...\d+). -/
def headDigit : List Char → Bool
  | c :: _ => c.isDigit
  | [] => false

/-- re.search of {lit}.*{continuation}. -/
def searchLitDotStar (a : String) (q : List Char → Bool) (low : List Char) : Bool :=
  anySuffix (fun cs =>
    match stripLit a.toList cs with
    | some r => dotStarThen q r
    | none => false) low

/-- Continuation that just requires a literal next. -/
def litDone (b : String) : List Char → Bool := fun cs => (stripLit b.toList cs).isSome

/-- Anchored match of \d+\s*hs\s*(a|hasta)\s*\d+\s*hs, with backtracking
between the two alternatives of the group. -/
def hsRangeAt (cs : List Char) : Bool :=
  match stripDigits1 cs with
  | none => false
  | some r1 =>
    match stripLit "hs".toList (dropWs r1) with
    | none => false
    | some r2 =>
      let r3 := dropWs r2
      let tail := fun r4 =>
        match stripDigits1 (dropWs r4) with
        | some r5 => (stripLit "hs".toList (dropWs r5)).isSome
        | none => false
      (match stripLit "a".toList r3 with
       | some r4 => tail r4
       | none => false) ||
      (match stripLit "hasta".toList r3 with
       | some r4 => tail r4
       | none => false)

/-- strong_indicators of _check_live_keywords. -/
def strong_indicators : List String :=
  ["live", "en vivo", "stream", "directo", "transmisión",
   "jugando en vivo", "streaming now", "live now"]

/-- duration words of _check_live_keywords. -/
def duration_words : List String := ["horas", "hour", "2h", "3h"]

/-- live_keywords of _check_live_keywords. -/
def live_keywords : List String :=
  ["stream", "streaming", "live", "en vivo", "directo",
   "transmisión", "gameplay", "jugando"]

/-- Score contributed by one video in _check_live_keywords: +3 when some
strong indicator occurs in title or description (the inner loop breaks
after the first), +2 when some duration word occurs in the title. -/
def videoLiveScore (v : Video) : Nat :=
  let title := pyLower v.title
  let desc := pyLower v.description
  (if strong_indicators.any (fun i => containsPy i title || containsPy i desc)
   then 3 else 0) +
  (if duration_words.any (fun w => containsPy w title) then 2 else 0)

/-- The keyword loop of _check_live_keywords over live_keywords[:3]. -/
def liveKeywordLoop (up : Upstream) (n : Nat) (chId : String) :
    List String → Nat → St → Nat × St
  | [], score, s => (min score 15, s)
  | kw :: rest, score, s =>
    match call_with_rotation n (fun k => up.liveSearch k chId kw) s with
    | (.allExhausted, s1) => (0, s1)
    | (.httpErr, s1) => (min score 15, s1)
    | (.ok videos, s1) =>
      let q := stUseQuota s1 3
      if q.2 then (min score 15, q.1)
      else
        let score1 := score + (videos.map videoLiveScore).sum
        if 10 ≤ score1 then (min score1 15, q.1)
        else liveKeywordLoop up n chId rest score1 q.1

/-- StreamingDetector._check_live_keywords. -/
def check_live_keywords (up : Upstream) (n : Nat) (chId : String) (s : St) :
    Nat × St :=
  if !can_make_request s 3 then (0, s)
  else if s.exhausted then (0, s)
  else liveKeywordLoop up n chId (live_keywords.take 3) 0 s

/-- StreamingDetector._check_broadcast_content. -/
def check_broadcast_content (up : Upstream) (n : Nat) (chId : String) (s : St) :
    Nat × St :=
  if !can_make_request s 3 then (0, s)
  else if s.exhausted then (0, s)
  else
    match call_with_rotation n (fun k => up.broadcast k chId) s with
    | (.allExhausted, s1) => (0, s1)
    | (.httpErr, s1) => (0, s1)
    | (.ok videos, s1) =>
      let q := stUseQuota s1 3
      if q.2 then (0, q.1)
      else
        let l := videos.length
        ((if 5 ≤ l then 8 else if 3 ≤ l then 5 else if 1 ≤ l then 3 else 0) +
         (if 8 ≤ l then 5 else 0), q.1)

/-- streaming_indicators of _check_channel_description. -/
def streaming_indicators : List String :=
  ["streamer", "streaming", "twitch", "live", "en vivo",
   "transmito", "streams", "directo", "gameplay",
   "jugando en vivo", "canal de gaming", "gamer",
   "transmisiones", "broadcasts", "contenido en vivo"]

/-- platform_mentions of _check_channel_description. -/
def platform_mentions : List String :=
  ["twitch.tv", "facebook gaming", "youtube live",
   "discord", "horarios", "schedule", "stream"]

/-- StreamingDetector._check_channel_description (pure in the channel). -/
def check_channel_description (ch : Channel) : Nat :=
  let low := pyLower ch.description
  let s1 := 3 * (streaming_indicators.filter (fun i => containsPy i low)).length
  let s2 := 2 * (platform_mentions.filter (fun p => containsPy p low)).length
  let pats := [anySuffix hsPatAt low, anySuffix digColonDigAt low,
               searchLitDotStar "lunes" (litDone "viernes") low,
               containsPy "horario" low, containsPy "schedule" low,
               containsPy "todos los días" low]
  let s3 := 2 * (pats.filter (fun b => b)).length
  min (s1 + s2 + s3) 12

/-- StreamingDetector._check_streaming_schedule (pure in the channel). -/
def check_streaming_schedule (ch : Channel) : Nat :=
  let low := pyLower (ch.description ++ " " ++ ch.title)
  let pats := [anySuffix hsRangeAt low,
               searchLitDotStar "lunes" (litDone "viernes") low,
               searchLitDotStar "stream" digColonDigAt low,
               searchLitDotStar "en vivo" headDigit low,
               searchLitDotStar "transmito" headDigit low,
               searchLitDotStar "todos los días" headDigit low]
  min (4 * (pats.filter (fun b => b)).length) 8

/-- The platform weight table of _check_streaming_platforms. -/
def platformsTable : List (String × Nat) :=
  [("twitch", 5), ("facebook gaming", 4), ("youtube live", 3), ("mixer", 3),
   ("discord", 2), ("obs", 4), ("streamlabs", 4), ("xsplit", 3)]

/-- StreamingDetector._check_streaming_platforms (pure in the channel). -/
def check_streaming_platforms (ch : Channel) : Nat :=
  let low := pyLower (ch.description ++ " " ++ ch.title)
  min ((platformsTable.filter (fun p => containsPy p.1 low)).map Prod.snd).sum 10

/-- StreamingDetector.check_streaming_capability: missing or empty id is
rejected outright; under all_apis_exhausted every identifiable channel is
assumed to stream; otherwise the five sub-scores are summed against the
threshold 15. -/
def check_streaming_capability (up : Upstream) (n : Nat) (ch : Channel) (s : St) :
    Bool × St :=
  match ch.id with
  | none => (false, s)
  | some cid =>
    if cid = "" then (false, s)
    else if s.exhausted then (true, s)
    else
      let r1 := check_live_keywords up n cid s
      let r2 := check_broadcast_content up n cid r1.2
      let ds := check_channel_description ch
      let ss := check_streaming_schedule ch
      let ps := check_streaming_platforms ch
      (15 ≤ r1.1 + r2.1 + ds + ss + ps, r2.2)

/-! YouTubeClient methods (production mode). A result of .error models the
all-credentials-exhausted exception propagating out of the method; every
other exception is caught inside the method exactly as in the source. -/

/-- YouTubeClient.get_channel_details. On a fresh fetch the streaming
detector runs and its verdict is stored into the channel before caching;
a cached channel is returned as stored. A raise from use_quota is caught
by the generic handler and yields None. -/
def get_channel_details (up : Upstream) (n : Nat) (cid : String) (now : Nat)
    (s : St) : Except Unit (Option Channel) × St :=
  if s.exhausted then (.error (), s)
  else if !can_make_request s COST_CHANNEL_DETAILS then (.ok none, s)
  else
    match cacheLookup s.chanCache now ("channel_" ++ cid) with
    | some c => (.ok (some c), s)
    | none =>
      match call_with_rotation n (fun k => up.detail k cid) s with
      | (.allExhausted, s1) => (.error (), s1)
      | (.httpErr, s1) => (.ok none, s1)
      | (.ok items, s1) =>
        let q := stUseQuota s1 COST_CHANNEL_DETAILS
        if q.2 then (.ok none, q.1)
        else
          match items with
          | [] => (.ok none, q.1)
          | c :: _ =>
            let hs := check_streaming_capability up n c q.1
            let c1 := { c with hasStreaming := some hs.1 }
            let s2 := { hs.2 with
                        chanCache := ("channel_" ++ cid, now, c1) :: hs.2.chanCache }
            (.ok (some c1), s2)

/-- YouTubeClient.get_recent_videos. -/
def get_recent_videos (up : Upstream) (n : Nat) (cid : String) (s : St) :
    Except Unit (List Video) × St :=
  if s.exhausted then (.error (), s)
  else if !can_make_request s COST_VIDEO_LIST then (.ok [], s)
  else
    match call_with_rotation n (fun k => up.recent k cid) s with
    | (.allExhausted, s1) => (.error (), s1)
    | (.httpErr, s1) => (.ok [], s1)
    | (.ok vids, s1) =>
      let q := stUseQuota s1 COST_VIDEO_LIST
      if q.2 then (.ok [], q.1)
      else (.ok vids, q.1)

/-- The pagination loop of search_channels. A cached page is consumed
without quota cost and the loop continues; a fresh page is charged, cached,
and pagination ends when nextPageToken is missing. A non-quota HttpError or
a use_quota raise breaks the loop with the channels collected so far; the
all-credentials-exhausted exception propagates. -/
def searchLoop (up : Upstream) (n : Nat) (query : String) (now : Nat) :
    Nat → Nat → Option String → List SearchItem → St →
    Except Unit (List SearchItem) × St
  | 0, _, _, acc, s => (.ok acc, s)
  | pagesLeft + 1, page, token, acc, s =>
    if !can_make_request s COST_SEARCH then (.ok acc, s)
    else
      let key := "search_" ++ query ++ "_" ++ toString page
      match cacheLookup s.searchCache now key with
      | some resp =>
        searchLoop up n query now pagesLeft (page + 1) resp.nextPageToken
          (acc ++ resp.items) s
      | none =>
        match call_with_rotation n (fun k => up.searchPage k token) s with
        | (.allExhausted, s1) => (.error (), s1)
        | (.httpErr, s1) => (.ok acc, s1)
        | (.ok resp, s1) =>
          let q := stUseQuota s1 COST_SEARCH
          if q.2 then (.ok acc, q.1)
          else
            let s2 := { q.1 with searchCache := (key, now, resp) :: q.1.searchCache }
            let acc1 := acc ++ resp.items
            match resp.nextPageToken with
            | none => (.ok acc1, s2)
            | some tk => searchLoop up n query now pagesLeft (page + 1) (some tk) acc1 s2

/-- YouTubeClient.search_channels. -/
def search_channels (up : Upstream) (n : Nat) (query : String) (maxPages : Nat)
    (now : Nat) (s : St) : Except Unit (List SearchItem) × St :=
  if s.exhausted then (.error (), s)
  else searchLoop up n query now maxPages 0 none [] s

/-! DataManager seen-set, ChannelAnalyzer and the engine search-term loop. -/

/-- DataManager.is_channel_processed. -/
def is_channel_processed (processed : List String) (cid : String) : Bool :=
  processed.contains cid

/-- The accepted-streamer record built by ChannelAnalyzer.analyze_channel
(fields whose values the embedding models; file paths and wall-clock dates
are I/O and are omitted). -/
structure StreamerData where
  canal_id : String
  nombre_canal : String
  categoria : String
  provincia : String
  suscriptores : Nat
  certeza : ℚ
  metodo_deteccion : String
  indicadores_argentinidad : List String
  tiene_streaming : Bool
  videos_analizados : Nat
  deriving Repr, DecidableEq

/-- institutional_keywords of enhanced_channel_filter. -/
def institutional_keywords : List String :=
  ["oficial", "empresa", "corporativo", "institucional",
   "news", "noticias", "government", "gobierno",
   "university", "universidad", "school", "escuela"]

/-- ChannelAnalyzer.enhanced_channel_filter. The publishedAt recency test
is modelled on publishedAgeDays (none when the snippet field is empty, in
which case the source skips the test); the engagement ratio test
view_count / subscribers < 50 is the exact rational comparison
view_count < 50 * subscribers. -/
def enhanced_channel_filter (ch : Channel) : Bool × String :=
  if ch.hasStreaming ≠ some true then (false, "Sin evidencia de streaming real")
  else if (match ch.publishedAgeDays with
           | some d => decide (365 * 3 < d)
           | none => false) then (false, "Canal inactivo (>3 años)")
  else if 0 < ch.subscriberCount ∧ 0 < ch.viewCount ∧
          ch.viewCount < 50 * ch.subscriberCount then
    (false, "Engagement muy bajo")
  else
    match institutional_keywords.find? (fun k =>
        containsPy k (pyLower ch.title) || containsPy k (pyLower ch.description)) with
    | some k => (false, "Canal institucional (" ++ k ++ ")")
    | none =>
      if 0 < ch.videoCount ∧ ch.videoCount < 5 ∧ 10000 < ch.subscriberCount then
        (false, "Pocos videos para ser streamer activo")
      else (true, "Canal válido")

/-- The category keyword table of categorize_channel, in dict order. -/
def categoriesTable : List (String × List String) :=
  [("Gaming", ["gaming", "games", "juegos", "videojuegos", "gamer", "twitch",
               "minecraft", "fortnite"]),
   ("Charlas/Podcast", ["charlas", "podcast", "entrevista", "conversación",
                        "debate", "opinión"]),
   ("IRL/Vlogs", ["irl", "vlog", "vida", "día", "diario", "salida", "aventura"]),
   ("Música", ["música", "music", "cantante", "banda", "cover", "canción",
               "musical"]),
   ("Cocina", ["cocina", "receta", "cooking", "comida", "gastronomía", "chef"]),
   ("Educativo", ["educativo", "tutorial", "clase", "enseña", "aprende", "curso"]),
   ("Deportes", ["deporte", "fútbol", "basket", "tenis", "gym", "entrena"]),
   ("Tecnología", ["tech", "tecnología", "programación", "código", "software"]),
   ("Arte", ["arte", "dibujo", "pintura", "diseño", "ilustración", "creativo"])]

/-- ChannelAnalyzer.categorize_channel: keyword hit counts per category over
description plus the first five video titles; Python max over the scores
dict returns the first maximal entry in insertion order; no hits at all
defaults to Entretenimiento. -/
def categorize_channel (description : String) (videos : List Video) : String :=
  let text := pyLower description ++
    ((videos.take 5).flatMap (fun v => ' ' :: pyLower v.title))
  let scores := categoriesTable.filterMap (fun p =>
    let sc := (p.2.filter (fun k => containsPy k text)).length
    if sc = 0 then none else some (p.1, sc))
  match scores with
  | [] => "Entretenimiento"
  | x :: xs => (xs.foldl (fun best y => if best.2 < y.2 then y else best) x).1

/-- ChannelAnalyzer.analyze_channel: detail fetch, minimum-subscriber gate,
enhanced filter, recent videos, Argentine-ness analysis, confidence gate,
categorisation. A .error result models the all-credentials-exhausted
exception re-raised to the engine. -/
def analyzer_analyze_channel (up : Upstream) (n : Nat) (now : Nat)
    (item : SearchItem) (s : St) : Except Unit (Option StreamerData) × St :=
  match item.channelId with
  | none => (.ok none, s)
  | some cid =>
    if cid = "" then (.ok none, s)
    else
      match get_channel_details up n cid now s with
      | (.error (), s1) => (.error (), s1)
      | (.ok none, s1) => (.ok none, s1)
      | (.ok (some ch), s1) =>
        if ch.subscriberCount < MIN_SUBSCRIBERS then (.ok none, s1)
        else if (enhanced_channel_filter ch).1 = false then (.ok none, s1)
        else
          match get_recent_videos up n cid s1 with
          | (.error (), s2) => (.error (), s2)
          | (.ok vids, s2) =>
            let analysis := detectorAnalyzeChannel ch vids
            if analysis.is_argentine = false then (.ok none, s2)
            else if analysis.confidence < MIN_CERTAINTY_ARGENTINA then (.ok none, s2)
            else
              (.ok (some
                { canal_id := cid,
                  nombre_canal := ch.title,
                  categoria := categorize_channel ch.description vids,
                  provincia := analysis.province.getD "Argentina",
                  suscriptores := ch.subscriberCount,
                  certeza := analysis.confidence,
                  metodo_deteccion := analysis.method,
                  indicadores_argentinidad := analysis.indicators,
                  tiene_streaming := true,
                  videos_analizados := vids.length }), s2)

/-- Engine-level state threaded through process_search_term. attempted
is instrumentation recording the ids handed to the analyzer. -/
structure EngSt where
  st : St
  apisExhausted : Bool
  processed : List String
  attempted : List String
  found : Nat
  saved : List StreamerData
  deriving Repr, DecidableEq

/-- The seen filter of process_search_term: walk the search results in
order, keep an item whose id is present, non-empty and not yet processed,
and mark it processed immediately (before any analysis). Returns the grown
processed set and new_channels. -/
def filterNewChannels (processed : List String) :
    List SearchItem → List String × List SearchItem
  | [] => (processed, [])
  | ch :: rest =>
    match ch.channelId with
    | none => filterNewChannels processed rest
    | some cid =>
      if cid = "" then filterNewChannels processed rest
      else if is_channel_processed processed cid then filterNewChannels processed rest
      else
        let r := filterNewChannels (cid :: processed) rest
        (r.1, ch :: r.2)

/-- The per-channel analysis loop of process_search_term: stop when the
apis_exhausted flag is set or the quota floor (detail + videos + 9) cannot
be afforded; an exhaustion raise from the analyzer sets the flag and stops;
an accepted streamer is saved and counted. -/
def analysisLoop (up : Upstream) (n : Nat) (now : Nat) :
    List SearchItem → EngSt → EngSt
  | [], e => e
  | ch :: rest, e =>
    if e.apisExhausted then e
    else if !can_make_request e.st (COST_CHANNEL_DETAILS + COST_VIDEO_LIST + 9) then e
    else
      let e1 := { e with attempted := e.attempted ++
                    (match ch.channelId with | some c => [c] | none => []) }
      match analyzer_analyze_channel up n now ch e1.st with
      | (.error (), s1) => { e1 with st := s1, apisExhausted := true }
      | (.ok none, s1) => analysisLoop up n now rest { e1 with st := s1 }
      | (.ok (some str), s1) =>
        analysisLoop up n now rest
          { e1 with st := s1, found := e1.found + 1, saved := e1.saved ++ [str] }

/-- StreamingArgentinaEngine.process_search_term: search (skipped outright
when apis_exhausted), mark-and-filter, then the analysis loop; returns the
number of streamers found by this term and the new engine state. -/
def process_search_term (up : Upstream) (n : Nat) (query : String)
    (maxPages : Nat) (now : Nat) (e : EngSt) : Nat × EngSt :=
  if e.apisExhausted then (0, e)
  else
    match search_channels up n query maxPages now e.st with
    | (.error (), s1) => (0, { e with st := s1, apisExhausted := true })
    | (.ok channels, s1) =>
      if channels.isEmpty then (0, { e with st := s1 })
      else
        let fr := filterNewChannels e.processed channels
        let e1 := { e with st := s1, processed := fr.1 }
        let e2 := analysisLoop up n now fr.2 e1
        (e2.found - e1.found, e2)

/-! Concrete example inputs used by witnesses and counterexamples. -/

/-- A fresh client state: first key, not exhausted, no usage, empty caches. -/
def st0 : St :=
  { keyIndex := 0, exhausted := false, used := 0, chanCache := [],
    searchCache := [], calls := 0 }

/-- A client state whose all_apis_exhausted flag is already set. -/
def stEx : St := { st0 with exhausted := true }

/-- An upstream whose every call succeeds with an empty payload. -/
def upTriv : Upstream :=
  { searchPage := fun _ _ => .ok { items := [], nextPageToken := none },
    detail := fun _ _ => .ok [],
    liveSearch := fun _ _ _ => .ok [],
    broadcast := fun _ _ => .ok [],
    recent := fun _ _ => .ok [] }

/-! Claim C2. -/

/-- C2: QuotaTracker.can_use_quota(cost) is true exactly when
used_quota + cost stays within MAX_DAILY_QUOTA - SAFETY_BUFFER; and in the
limit-1000 / buffer-100 ledger scenario, after two successful charges of
400, a charge check of 200 is refused (it would reach 1000, above the 900
effective ceiling) while a check of 100 is allowed. -/
theorem c2_can_use_quota_spec :
    (∀ used cost : Nat, can_use_quota used cost = true ↔
      used + cost ≤ MAX_DAILY_QUOTA - SAFETY_BUFFER) ∧
    (useQuotaP 1000 100 0 400 = (400, false) ∧
     useQuotaP 1000 100 400 400 = (800, false) ∧
     canUseQuotaP 1000 100 800 200 = false ∧
     canUseQuotaP 1000 100 800 100 = true) := by
  refine ⟨fun used cost => ?_, by decide, by decide, by decide, by decide⟩
  simp [can_use_quota, canUseQuotaP]

/-- Witness for C2 at concrete inputs. -/
theorem c2_can_use_quota_spec_witness :
    can_use_quota 17900 100 = true ↔ 17900 + 100 ≤ MAX_DAILY_QUOTA - SAFETY_BUFFER :=
  c2_can_use_quota_spec.1 17900 100

/-! Claim C3. The claim states that use_quota fails exactly when the
projected usage would strictly exceed MAX_DAILY_QUOTA - SAFETY_BUFFER and
that on failure the recorded usage is not increased. The source increments
used_quota first (persisting it) and then raises as soon as the new usage
reaches (is greater than or equal to) the effective limit. -/

/-- Counterexample to C3: at used_quota = 17999, cost = 1 the projected
usage 18000 does not exceed the effective limit 18000, yet use_quota
raises, and the recorded usage has been increased to 18000 on this
failure. -/
theorem c3_counterexample :
    (use_quota 17999 1).2 = true ∧
    ¬ (MAX_DAILY_QUOTA - SAFETY_BUFFER < 17999 + 1) ∧
    (use_quota 17999 1).1 = 18000 := by decide

/-- C3 amended: use_quota always adds the cost to used_quota (also on
failure), and it fails exactly when the new usage reaches or exceeds
MAX_DAILY_QUOTA - SAFETY_BUFFER. -/
theorem c3_use_quota_spec (used cost : Nat) :
    (use_quota used cost).1 = used + cost ∧
    ((use_quota used cost).2 = true ↔
      MAX_DAILY_QUOTA - SAFETY_BUFFER ≤ used + cost) := by
  refine ⟨rfl, ?_⟩
  simp [use_quota, useQuotaP]

/-- Witness for the amended C3 at concrete inputs. -/
theorem c3_use_quota_spec_witness :
    (use_quota 400 400).1 = 400 + 400 ∧
    ((use_quota 400 400).2 = true ↔
      MAX_DAILY_QUOTA - SAFETY_BUFFER ≤ 400 + 400) :=
  c3_use_quota_spec 400 400

/-! Claim C1. -/

/-- Rotation loop under all-quota-exceeded behaviour: the loop always ends
in the all-credentials-exhausted error with the flag set, issuing at most
fuel underlying calls. -/
theorem callRotAux_all_quota {α : Type} (n : Nat) (beh : Nat → ApiOut α)
    (hq : ∀ i, beh i = ApiOut.quotaErr) (fuel : Nat) :
    ∀ s : St,
      (callRotAux n beh fuel s).1 = CallRes.allExhausted ∧
      (callRotAux n beh fuel s).2.exhausted = true ∧
      (callRotAux n beh fuel s).2.calls ≤ s.calls + fuel := by
  induction fuel with
  | zero => intro s; simp [callRotAux]
  | succ m ih =>
    intro s
    simp only [callRotAux, hq, rotateKey]
    by_cases hk : s.keyIndex + 1 < n
    · simp only [if_pos hk]
      refine ⟨(ih _).1, (ih _).2.1, le_trans (ih _).2.2 (by simp; omega)⟩
    · simp only [if_neg hk]
      refine ⟨by simp, by simp, by simp⟩

/-- C1: rotation termination and terminal exhaustion. With n configured
keys all answering quotaExceeded, _call_with_rotation issues at most n
underlying calls, sets all_apis_exhausted and raises the
all-credentials-exhausted error; and once the flag is set, every client
call (_call_with_rotation, search_channels, get_channel_details,
get_recent_videos) raises that error immediately, with the state (and in
particular the network-call counter) unchanged. -/
theorem c1_rotation_termination :
    (∀ (α : Type) (n : Nat) (beh : Nat → ApiOut α) (s : St),
       s.exhausted = false → (∀ i, beh i = ApiOut.quotaErr) →
       (call_with_rotation n beh s).1 = CallRes.allExhausted ∧
       (call_with_rotation n beh s).2.exhausted = true ∧
       (call_with_rotation n beh s).2.calls ≤ s.calls + n) ∧
    (∀ (α : Type) (n : Nat) (beh : Nat → ApiOut α) (s : St),
       s.exhausted = true →
       call_with_rotation n beh s = (CallRes.allExhausted, s)) ∧
    (∀ (up : Upstream) (n : Nat) (query : String) (maxPages now : Nat) (s : St),
       s.exhausted = true →
       search_channels up n query maxPages now s = (.error (), s)) ∧
    (∀ (up : Upstream) (n : Nat) (cid : String) (now : Nat) (s : St),
       s.exhausted = true →
       get_channel_details up n cid now s = (.error (), s)) ∧
    (∀ (up : Upstream) (n : Nat) (cid : String) (s : St),
       s.exhausted = true →
       get_recent_videos up n cid s = (.error (), s)) := by
  refine ⟨?_, ?_, ?_, ?_, ?_⟩
  · intro α n beh s hex hq
    simp only [call_with_rotation, hex, Bool.false_eq_true, if_false]
    exact callRotAux_all_quota n beh hq n s
  · intro α n beh s hex
    simp [call_with_rotation, hex]
  · intro up n query maxPages now s hex
    simp [search_channels, hex]
  · intro up n cid now s hex
    simp [get_channel_details, hex]
  · intro up n cid s hex
    simp [get_recent_videos, hex]

/-- Witness for C1: two keys that always answer quotaExceeded from a fresh
state, and each client entry point from an exhausted state. -/
theorem c1_rotation_termination_witness :
    ((call_with_rotation 2 (fun _ => ApiOut.quotaErr (α := Unit)) st0).1 =
       CallRes.allExhausted ∧
     (call_with_rotation 2 (fun _ => ApiOut.quotaErr (α := Unit)) st0).2.exhausted = true ∧
     (call_with_rotation 2 (fun _ => ApiOut.quotaErr (α := Unit)) st0).2.calls ≤
       st0.calls + 2) ∧
    call_with_rotation 2 (fun _ => ApiOut.quotaErr (α := Unit)) stEx =
      (CallRes.allExhausted, stEx) ∧
    search_channels upTriv 2 "streaming argentina" 5 0 stEx = (.error (), stEx) ∧
    get_channel_details upTriv 2 "UC1" 0 stEx = (.error (), stEx) ∧
    get_recent_videos upTriv 2 "UC1" stEx = (.error (), stEx) :=
  ⟨c1_rotation_termination.1 Unit 2 _ st0 rfl (fun _ => rfl),
   c1_rotation_termination.2.1 Unit 2 _ stEx rfl,
   c1_rotation_termination.2.2.1 upTriv 2 "streaming argentina" 5 0 stEx rfl,
   c1_rotation_termination.2.2.2.1 upTriv 2 "UC1" 0 stEx rfl,
   c1_rotation_termination.2.2.2.2 upTriv 2 "UC1" stEx rfl⟩

/-! Claim C10. -/

/-- C10: when all_apis_exhausted is set, check_streaming_capability accepts
every channel whose id field is present and non-empty, and rejects a
channel without id; in both cases the state is returned unchanged (none of
the five sub-scores is computed, no underlying call is made). -/
theorem c10_exhaustion_bypasses_gate (up : Upstream) (n : Nat) (ch : Channel)
    (s : St) (hex : s.exhausted = true) :
    (∀ cid : String, ch.id = some cid → cid ≠ "" →
       check_streaming_capability up n ch s = (true, s)) ∧
    (ch.id = none → check_streaming_capability up n ch s = (false, s)) := by
  constructor
  · intro cid hid hne
    simp [check_streaming_capability, hid, hne, hex]
  · intro hid
    simp [check_streaming_capability, hid]

/-- Witness for C10: an exhausted client accepts a channel with id UC1
without any call, and rejects a channel whose id is absent. -/
theorem c10_exhaustion_bypasses_gate_witness :
    check_streaming_capability upTriv 2
      { id := some "UC1", title := "", description := "", country := "",
        publishedAgeDays := none, subscriberCount := 0, viewCount := 0,
        videoCount := 0, hasStreaming := none } stEx = (true, stEx) ∧
    check_streaming_capability upTriv 2
      { id := none, title := "", description := "", country := "",
        publishedAgeDays := none, subscriberCount := 0, viewCount := 0,
        videoCount := 0, hasStreaming := none } stEx = (false, stEx) :=
  ⟨(c10_exhaustion_bypasses_gate upTriv 2 _ stEx rfl).1 "UC1" rfl (by decide),
   (c10_exhaustion_bypasses_gate upTriv 2 _ stEx rfl).2 rfl⟩

/-! Claim C9. -/

/-- C9: classifier monotonicity. For two texts where the second has at
least as many matching hits in every lexicon (voseo regex matches, slang
terms, cultural terms, time patterns), the confidence
min(95, score * 1.5) computed by analyze_cultural_patterns does not
decrease. -/
theorem c9_classifier_monotonicity (t1 t2 : String)
    (hv : voseoCount (pyLower t1) ≤ voseoCount (pyLower t2))
    (hs : (slangFound (pyLower t1)).length ≤ (slangFound (pyLower t2)).length)
    (hc : (cultureFound (pyLower t1)).length ≤ (cultureFound (pyLower t2)).length)
    (ht : timeMatches (pyLower t1) ≤ timeMatches (pyLower t2)) :
    (analyze_cultural_patterns t1).confidence ≤
      (analyze_cultural_patterns t2).confidence := by
  have hscore : voseoCount (pyLower t1) * 20 + (slangFound (pyLower t1)).length * 10 +
      (cultureFound (pyLower t1)).length * 8 + timeMatches (pyLower t1) * 15 ≤
      voseoCount (pyLower t2) * 20 + (slangFound (pyLower t2)).length * 10 +
      (cultureFound (pyLower t2)).length * 8 + timeMatches (pyLower t2) * 15 := by
    omega
  simp only [analyze_cultural_patterns]
  refine min_le_min (le_refl 95) ?_
  gcongr

/-- Witness for C9: strictly more hits in the second text. -/
theorem c9_classifier_monotonicity_witness :
    (analyze_cultural_patterns "hola").confidence ≤
      (analyze_cultural_patterns "che mate 20hs").confidence :=
  c9_classifier_monotonicity "hola" "che mate 20hs"
    (by decide) (by decide) (by decide) (by decide)

/-! Claim C6. -/

/-- Any result produced by one step of the exclusion loop carries the fixed
confidence 90 and method other_country. -/
theorem exclResultFor_fields (low : List Char) (p : String × List String)
    (v : ExclusionResult) (h : exclResultFor low p = some v) :
    v.confidence = 90 ∧ v.method = "other_country" := by
  simp only [exclResultFor] at h
  split at h
  · exact absurd h (by simp)
  · cases h
    exact ⟨rfl, rfl⟩

/-- A step that produces nothing found no indicator of its country. -/
theorem exclResultFor_none (low : List Char) (p : String × List String)
    (h : exclResultFor low p = none) :
    (p.2.filter (fun ind => containsPy ind low)).length = 0 := by
  simp only [exclResultFor] at h
  split at h
  · rename_i hemp
    simpa [List.isEmpty_iff] using hemp
  · exact absurd h (by simp)

/-- The first exclusion hit of the country list has confidence 90. -/
theorem exclHead_fields (low : List Char) :
    ∀ (l : List (String × List String)) (r : ExclusionResult),
      (l.filterMap (exclResultFor low)).head? = some r →
      r.confidence = 90 ∧ r.method = "other_country" := by
  intro l
  induction l with
  | nil => simp
  | cons p rest ih =>
    intro r
    simp only [List.filterMap_cons]
    rcases hp : exclResultFor low p with _ | v
    · exact ih r
    · intro h
      simp only [List.head?] at h
      cases h
      exact exclResultFor_fields low p _ hp

/-- When some country indicator is contained in the text, the exclusion
loop fires on some country. -/
theorem exclHead_some_of_hit (low : List Char) :
    ∀ l : List (String × List String),
      (l.map (fun p => (p.2.filter (fun ind => containsPy ind low)).length)).sum ≠ 0 →
      ∃ r, (l.filterMap (exclResultFor low)).head? = some r := by
  intro l
  induction l with
  | nil => simp
  | cons p rest ih =>
    intro hsum
    simp only [List.filterMap_cons]
    rcases hp : exclResultFor low p with _ | v
    · refine ih ?_
      have h0 := exclResultFor_none low p hp
      simp only [List.map_cons, List.sum_cons, h0, Nat.zero_add] at hsum
      exact hsum
    · exact ⟨v, rfl⟩

/-- C6: exclusion precedence. For a channel and videos whose assembled full
text contains at least three indicators of the other-country exclusion
lexicons and no explicit Argentina marker, ArgentineDetector.analyze_channel
rejects with the country-exclusion method. -/
theorem c6_exclusion_precedence (ch : Channel) (videos : List Video)
    (h3 : 3 ≤ exclusionHitCount (buildFullText ch videos))
    (hexp : detect_explicit_argentina (buildFullText ch videos) = none) :
    (detectorAnalyzeChannel ch videos).is_argentine = false ∧
    (detectorAnalyzeChannel ch videos).method = "country_exclusion" := by
  have hne : exclusionHitCount (buildFullText ch videos) ≠ 0 := by omega
  obtain ⟨r, hr⟩ := exclHead_some_of_hit (pyLower (buildFullText ch videos))
    country_exclusions hne
  have hr2 : detect_other_countries (buildFullText ch videos) = some r := hr
  have hf := exclHead_fields (pyLower (buildFullText ch videos))
    country_exclusions r hr
  unfold detectorAnalyzeChannel analyzeText
  rw [hr2]
  have h80 : (80 : ℚ) < r.confidence := by rw [hf.1]; norm_num
  simp [h80]

/-- Witness for C6: a channel whose description names three Spanish cities
and mentions nothing Argentine. -/
theorem c6_exclusion_precedence_witness :
    (detectorAnalyzeChannel
      { id := some "UC1", title := "Canal", description := "madrid barcelona valencia",
        country := "", publishedAgeDays := none, subscriberCount := 1000,
        viewCount := 100000, videoCount := 10, hasStreaming := none }
      []).is_argentine = false ∧
    (detectorAnalyzeChannel
      { id := some "UC1", title := "Canal", description := "madrid barcelona valencia",
        country := "", publishedAgeDays := none, subscriberCount := 1000,
        viewCount := 100000, videoCount := 10, hasStreaming := none }
      []).method = "country_exclusion" :=
  c6_exclusion_precedence _ [] (by decide) (by decide)

/-! Claim C8. -/

/-- The boundary condition to the left of a match: the character before the
needle (the last of pre, or the tracked previous-character wordness when
pre is empty) is not a word character. -/
def preBoundary (prevW : Bool) (pre : List Char) : Prop :=
  match pre.getLast? with
  | some c => isWordChar c = false
  | none => prevW = false

/-- stripLit succeeds exactly on lists that start with the literal. -/
theorem stripLit_eq_some (needle : List Char) :
    ∀ cs rest : List Char, stripLit needle cs = some rest ↔ cs = needle ++ rest := by
  induction needle with
  | nil => intro cs rest; simp [stripLit]
  | cons n ns ih =>
    intro cs rest
    cases cs with
    | nil => simp [stripLit]
    | cons c cs2 =>
      simp only [stripLit]
      by_cases h : n = c
      · subst h
        simp [ih]
      · simp [h, Ne.symm h]

/-- wbMatchAt holds exactly when the text starts with the needle, the
previous character is not a word character, and a boundary follows. -/
theorem wbMatchAt_iff (needle : List Char) (prevW : Bool) (cs : List Char) :
    wbMatchAt needle prevW cs = true ↔
      prevW = false ∧ ∃ post, cs = needle ++ post ∧ boundaryOk post = true := by
  constructor
  · intro h
    unfold wbMatchAt at h
    rcases hs : stripLit needle cs with _ | rest
    · rw [hs] at h; simp at h
    · rw [hs] at h
      simp only [Bool.and_eq_true, Bool.not_eq_true'] at h
      exact ⟨h.1, rest, (stripLit_eq_some needle cs rest).mp hs, h.2⟩
  · rintro ⟨hp, post, hpost, hb⟩
    unfold wbMatchAt
    rw [(stripLit_eq_some needle cs post).mpr hpost]
    simp [hp, hb]

/-- Shifting the scan by one character shifts the left-boundary condition. -/
theorem preBoundary_cons (prevW : Bool) (c : Char) (pre : List Char) :
    preBoundary prevW (c :: pre) ↔ preBoundary (isWordChar c) pre := by
  cases pre with
  | nil => simp [preBoundary]
  | cons d pre2 =>
    unfold preBoundary
    rw [List.getLast?_cons_cons]
    rcases h : (d :: pre2).getLast? with _ | x
    · rw [List.getLast?_eq_none_iff] at h
      exact absurd h (by simp)
    · simp [h]

/-- The word-boundary scan finds the needle exactly when the text splits as
pre ++ needle ++ post with non-word characters (or text edges) on both
sides of the needle. -/
theorem wbContainsAux_iff (needle : List Char) :
    ∀ (cs : List Char) (prevW : Bool),
      wbContainsAux needle prevW cs = true ↔
        ∃ pre post, cs = pre ++ needle ++ post ∧ preBoundary prevW pre ∧
          boundaryOk post = true := by
  intro cs
  induction cs with
  | nil =>
    intro prevW
    simp only [wbContainsAux]
    rw [wbMatchAt_iff]
    constructor
    · rintro ⟨hp, post, hpost, hb⟩
      exact ⟨[], post, by simpa using hpost, by simp [preBoundary, hp], hb⟩
    · rintro ⟨pre, post, heq, hpre, hb⟩
      have hpre0 : pre = [] := by
        cases pre with
        | nil => rfl
        | cons x xs => simp at heq
      subst hpre0
      refine ⟨by simpa [preBoundary] using hpre, post, by simpa using heq, hb⟩
  | cons c rest ih =>
    intro prevW
    simp only [wbContainsAux, Bool.or_eq_true]
    rw [wbMatchAt_iff, ih (isWordChar c)]
    constructor
    · rintro (⟨hp, post, hpost, hb⟩ | ⟨pre, post, heq, hpre, hb⟩)
      · exact ⟨[], post, by simpa using hpost, by simp [preBoundary, hp], hb⟩
      · refine ⟨c :: pre, post, by simp [heq], ?_, hb⟩
        exact (preBoundary_cons prevW c pre).mpr hpre
    · rintro ⟨pre, post, heq, hpre, hb⟩
      cases pre with
      | nil =>
        left
        exact ⟨by simpa [preBoundary] using hpre, post, by simpa using heq, hb⟩
      | cons c2 pre2 =>
        right
        have hc : c = c2 ∧ rest = pre2 ++ needle ++ post := by simpa using heq
        refine ⟨pre2, post, hc.2, ?_, hb⟩
        have := (preBoundary_cons prevW c2 pre2).mp hpre
        rwa [← hc.1] at this

/-- Counterexample to C8: the slang term che is counted as a hit of
analyze_cultural_patterns in the text noche although it occurs only inside
the longer word (there is no word-boundary occurrence of it). -/
theorem c8_counterexample :
    "che" ∈ slangFound (pyLower "noche") ∧
    wbContains "che".toList (pyLower "noche") = false ∧
    0 < (analyze_cultural_patterns "noche").score := by
  refine ⟨by decide, by decide, by decide⟩

/-- C8 amended: only the regional-code matching of
detect_explicit_argentina is word-boundary-aware - wbContains finds a
needle exactly at occurrences flanked by non-word characters or text edges,
so a code never matches inside a longer word; the other lexicons (slang
shown here, and likewise explicit mentions, cultural terms and exclusion
indicators) count a term on plain substring containment, also inside longer
words. -/
theorem c8_code_boundary_substring_others :
    (∀ needle hay : List Char, wbContains needle hay = true ↔
       ∃ pre post, hay = pre ++ needle ++ post ∧ preBoundary false pre ∧
         boundaryOk post = true) ∧
    (∀ (low : List Char) (term : String), term ∈ argentine_slang →
       isSubstrL term.toList low = true → term ∈ slangFound low) := by
  constructor
  · intro needle hay
    exact wbContainsAux_iff needle hay false
  · intro low term hmem hsub
    simp only [slangFound, List.mem_filter, containsPy]
    exact ⟨hmem, hsub⟩

/-- Witness for the amended C8: the code mza matched with boundaries in
en mza, and the slang hit che counted by substring in la noche. -/
theorem c8_code_boundary_substring_others_witness :
    (∃ pre post, "en mza".toList = pre ++ "mza".toList ++ post ∧
       preBoundary false pre ∧ boundaryOk post = true) ∧
    "che" ∈ slangFound "la noche".toList :=
  ⟨(c8_code_boundary_substring_others.1 "mza".toList "en mza".toList).mp (by decide),
   c8_code_boundary_substring_others.2 "la noche".toList "che" (by decide) (by decide)⟩

/-! Claim C4. -/

/-- An id already in the processed set never survives into new_channels:
the filter only lets through ids that are absent from the (only growing)
processed set. -/
theorem filterNewChannels_excludes (cid : String) :
    ∀ (processed : List String) (chs : List SearchItem), cid ∈ processed →
      ∀ ch ∈ (filterNewChannels processed chs).2, ch.channelId ≠ some cid := by
  intro processed chs
  induction chs generalizing processed with
  | nil => intro _ ch hch; simp [filterNewChannels] at hch
  | cons c0 rest ih =>
    intro hmem ch hch
    rcases hid : c0.channelId with _ | c
    · simp only [filterNewChannels, hid] at hch
      exact ih processed hmem ch hch
    · simp only [filterNewChannels, hid] at hch
      by_cases hce : c = ""
      · rw [if_pos hce] at hch
        exact ih processed hmem ch hch
      · rw [if_neg hce] at hch
        by_cases hproc : is_channel_processed processed c = true
        · rw [if_pos hproc] at hch
          exact ih processed hmem ch hch
        · rw [if_neg hproc] at hch
          rcases List.mem_cons.mp hch with h1 | h2
          · subst h1
            rw [hid]
            intro heq
            have hcc : c = cid := by simpa using heq
            subst hcc
            exact hproc (by simpa [is_channel_processed] using hmem)
          · exact ih (c :: processed) (List.mem_cons_of_mem _ hmem) ch h2

/-- Splitting membership in the attempted-ids extension of one loop step. -/
theorem mem_attempted_ext (x : String) (att : List String) (o : Option String)
    (h : x ∈ att ++ (match o with | some c => [c] | none => [])) :
    x ∈ att ∨ o = some x := by
  rcases List.mem_append.mp h with h1 | h2
  · exact Or.inl h1
  · right
    cases o with
    | none => simp at h2
    | some c =>
      have : x = c := by simpa using h2
      rw [this]

/-- Every id the analysis loop hands to the analyzer is either an
already-recorded attempted id or the id of one of the loop's channels. -/
theorem analysisLoop_attempted_sub (up : Upstream) (n now : Nat) :
    ∀ (l : List SearchItem) (e : EngSt) (x : String),
      x ∈ (analysisLoop up n now l e).attempted →
      x ∈ e.attempted ∨ ∃ ch ∈ l, ch.channelId = some x := by
  intro l
  induction l with
  | nil => intro e x hx; left; simpa [analysisLoop] using hx
  | cons c0 rest ih =>
    intro e x hx
    simp only [analysisLoop] at hx
    split at hx
    · exact Or.inl hx
    · split at hx
      · exact Or.inl hx
      · split at hx
        · rcases mem_attempted_ext x e.attempted c0.channelId hx with h1 | h2
          · exact Or.inl h1
          · exact Or.inr ⟨c0, List.mem_cons_self c0 rest, h2⟩
        · rcases ih _ x hx with h1 | h2
          · rcases mem_attempted_ext x e.attempted c0.channelId h1 with h3 | h4
            · exact Or.inl h3
            · exact Or.inr ⟨c0, List.mem_cons_self c0 rest, h4⟩
          · obtain ⟨ch, hch, hcid⟩ := h2
            exact Or.inr ⟨ch, List.mem_cons_of_mem _ hch, hcid⟩
        · rcases ih _ x hx with h1 | h2
          · rcases mem_attempted_ext x e.attempted c0.channelId h1 with h3 | h4
            · exact Or.inl h3
            · exact Or.inr ⟨c0, List.mem_cons_self c0 rest, h4⟩
          · obtain ⟨ch, hch, hcid⟩ := h2
            exact Or.inr ⟨ch, List.mem_cons_of_mem _ hch, hcid⟩

/-- C4: run idempotence with respect to the seen set. An id for which
is_channel_processed is true is filtered out of new_channels for any search
result, and a whole process_search_term run never hands it to
ChannelAnalyzer.analyze_channel (no detail or video fetch for it). -/
theorem c4_seen_filter_idempotence (up : Upstream) (n : Nat) (query : String)
    (maxPages now : Nat) (e : EngSt) (cid : String)
    (hproc : cid ∈ e.processed) (hatt : cid ∉ e.attempted) :
    (∀ chs : List SearchItem, ∀ ch ∈ (filterNewChannels e.processed chs).2,
       ch.channelId ≠ some cid) ∧
    cid ∉ ((process_search_term up n query maxPages now e).2).attempted := by
  constructor
  · intro chs
    exact filterNewChannels_excludes cid e.processed chs hproc
  · intro hc
    unfold process_search_term at hc
    split at hc
    · exact hatt hc
    · split at hc
      · exact hatt hc
      · split at hc
        · exact hatt hc
        · rcases analysisLoop_attempted_sub up n now _ _ cid hc with h1 | h2
          · exact hatt h1
          · obtain ⟨ch, hch, hcid⟩ := h2
            exact filterNewChannels_excludes cid e.processed _ hproc ch hch hcid

/-- Witness for C4: the id A is already processed; it is excluded from
new_channels and never attempted. -/
theorem c4_seen_filter_idempotence_witness :
    (∀ chs : List SearchItem,
       ∀ ch ∈ (filterNewChannels
           ({ st := st0, apisExhausted := false, processed := ["A"],
              attempted := [], found := 0, saved := [] : EngSt }).processed chs).2,
         ch.channelId ≠ some "A") ∧
    "A" ∉ ((process_search_term upTriv 1 "q" 1 0
        { st := st0, apisExhausted := false, processed := ["A"],
          attempted := [], found := 0, saved := [] }).2).attempted :=
  c4_seen_filter_idempotence upTriv 1 "q" 1 0 _ "A" (by decide) (by decide)

/-! Claim C5. -/

/-- A search item with id A. -/
def itemA : SearchItem := { channelId := some "A" }

/-- A search item with id B. -/
def itemB : SearchItem := { channelId := some "B" }

/-- An upstream where search succeeds with two channels but every detail
fetch answers quotaExceeded on every key. -/
def upQuotaDetail : Upstream :=
  { searchPage := fun _ _ => .ok { items := [itemA, itemB], nextPageToken := none },
    detail := fun _ _ => .quotaErr,
    liveSearch := fun _ _ _ => .ok [],
    broadcast := fun _ _ => .ok [],
    recent := fun _ _ => .ok [] }

/-- A fresh engine state: nothing processed, nothing attempted. -/
def engFresh : EngSt :=
  { st := st0, apisExhausted := false, processed := [], attempted := [],
    found := 0, saved := [] }

/-- Counterexample to C5: with one key, a search returning channels A and B,
and detail fetches exhausting the credential, process_search_term marks both
A and B processed at filter time, attempts A, exhausts, stops - and leaves
B marked processed although its detail was never fetched and it was never
classified. -/
theorem c5_counterexample :
    "B" ∈ ((process_search_term upQuotaDetail 1 "q" 1 0 engFresh).2).processed ∧
    "B" ∉ ((process_search_term upQuotaDetail 1 "q" 1 0 engFresh).2).attempted ∧
    ((process_search_term upQuotaDetail 1 "q" 1 0 engFresh).2).apisExhausted = true := by
  decide

/-- C5 amended: channel ids are added to the processed set when they are
selected out of the search results (in filterNewChannels, before any detail
fetch or classification); the per-channel analysis loop never modifies the
processed set, so the processed set after a run is exactly the filter-time
marking - the initial set plus the ids of new_channels - regardless of how
early the loop stopped. -/
theorem c5_marking_at_filter_time :
    (∀ (up : Upstream) (n now : Nat) (l : List SearchItem) (e : EngSt),
       (analysisLoop up n now l e).processed = e.processed) ∧
    (∀ (processed : List String) (chs : List SearchItem),
       (filterNewChannels processed chs).1 =
         ((filterNewChannels processed chs).2.filterMap SearchItem.channelId).reverse
           ++ processed) := by
  constructor
  · intro up n now l
    induction l with
    | nil => intro e; simp [analysisLoop]
    | cons c0 rest ih =>
      intro e
      simp only [analysisLoop]
      split
      · rfl
      · split
        · rfl
        · split
          · rfl
          · exact ih _
          · exact ih _
  · intro processed chs
    induction chs generalizing processed with
    | nil => simp [filterNewChannels]
    | cons c0 rest ih =>
      rcases hid : c0.channelId with _ | c
      · simp only [filterNewChannels, hid]
        exact ih processed
      · simp only [filterNewChannels, hid]
        by_cases hce : c = ""
        · rw [if_pos hce]; exact ih processed
        · rw [if_neg hce]
          by_cases hproc : is_channel_processed processed c = true
          · rw [if_pos hproc]; exact ih processed
          · rw [if_neg hproc]
            simp only [List.filterMap_cons, hid, List.reverse_cons]
            rw [ih (c :: processed)]
            simp

/-- Witness for the amended C5 at concrete inputs. -/
theorem c5_marking_at_filter_time_witness :
    (analysisLoop upTriv 1 0 [itemA] engFresh).processed = engFresh.processed ∧
    (filterNewChannels [] [itemA, itemB]).1 =
      ((filterNewChannels [] [itemA, itemB]).2.filterMap SearchItem.channelId).reverse
        ++ [] :=
  ⟨c5_marking_at_filter_time.1 upTriv 1 0 [itemA] engFresh,
   c5_marking_at_filter_time.2 [] [itemA, itemB]⟩

/-! Claim C7. -/

/-- A video whose title carries strong live indicators and a duration word. -/
def vLive : Video := { title := "live stream en vivo 3h", description := "" }

/-- A channel whose own texts carry no streaming evidence at all, so its
streaming verdict rests entirely on the API-based sub-checks. -/
def chCH : Channel :=
  { id := some "CH", title := "canal", description := "", country := "",
    publishedAgeDays := none, subscriberCount := 1000, viewCount := 100000,
    videoCount := 100, hasStreaming := none }

/-- A fixed upstream: the detail fetch returns chCH and every live-keyword
search returns three strongly live-looking videos. -/
def upCache : Upstream :=
  { searchPage := fun _ _ => .ok { items := [], nextPageToken := none },
    detail := fun _ _ => .ok [chCH],
    liveSearch := fun _ _ _ => .ok [vLive, vLive, vLive],
    broadcast := fun _ _ => .ok [],
    recent := fun _ _ => .ok [] }

/-- Late-day client state whose channel cache was populated by an earlier
run of get_channel_details itself (at zero usage). -/
def stPop : St :=
  { keyIndex := 0, exhausted := false, used := 17996,
    chanCache := (get_channel_details upCache 1 "CH" 0 st0).2.chanCache,
    searchCache := [], calls := 0 }

/-- The same late-day state with the cache lost. -/
def stFresh : St := { stPop with chanCache := [] }

/-- Counterexample to C7: with identical upstream responses and identical
quota and exhaustion state at call time (used_quota 17996), the cached call
serves the channel with has_streaming = true (computed when quota was
plentiful), while the fresh call recomputes it with the API-based
sub-checks quota-starved and stores has_streaming = false: cache state
changes the classification outcome, not only the cost. -/
theorem c7_counterexample :
    stPop.used = stFresh.used ∧ stPop.exhausted = stFresh.exhausted ∧
    (get_channel_details upCache 1 "CH" 0 stPop).1 =
      .ok (some { chCH with hasStreaming := some true }) ∧
    (get_channel_details upCache 1 "CH" 0 stFresh).1 =
      .ok (some { chCH with hasStreaming := some false }) :=
  ⟨rfl, rfl, rfl, rfl⟩

/-- Storing an entry and reading it back at the same instant serves it. -/
theorem cacheLookup_set_get (rest : List (String × Nat × Channel)) (now : Nat)
    (key : String) (c : Channel) :
    cacheLookup ((key, now, c) :: rest) now key = some c := by
  simp [cacheLookup, List.find?_cons, CACHE_TTL]

/-- C7 amended: cache transparency holds when the quota and exhaustion
state at cache-population time and at call time agree - a call replayed at
the very state whose fresh run produced and cached a channel returns that
same channel from the populated cache. (The counterexample shows it fails
when the quota state differs, because the stored has_streaming flag
reflects the quota state at population time.) -/
theorem c7_cache_replay (up : Upstream) (n : Nat) (cid : String) (now : Nat)
    (s : St) (c : Channel) (s1 : St)
    (h : get_channel_details up n cid now s = (.ok (some c), s1)) :
    (get_channel_details up n cid now { s with chanCache := s1.chanCache }).1 =
      .ok (some c) := by
  unfold get_channel_details at h ⊢
  split at h
  · simp at h
  · rename_i hexh
    split at h
    · simp at h
    · rename_i hcan
      have hcan2 : can_make_request s COST_CHANNEL_DETAILS = true := by
        cases hb : can_make_request s COST_CHANNEL_DETAILS with
        | false => exact absurd (by rw [hb]; rfl) hcan
        | true => rfl
      have hcanu : can_use_quota s.used COST_CHANNEL_DETAILS = true := hcan2
      split at h
      · rename_i c0 hlook
        have hc : c0 = c := by
          have := congrArg Prod.fst h
          simpa using this
        have hs : s = s1 := by
          have := congrArg Prod.snd h
          simpa using this
        subst hc
        rw [← hs]
        have heta : ({ s with chanCache := s.chanCache } : St) = s := rfl
        rw [heta]
        simp [hexh, hcan2, hlook]
      · rename_i hlook
        split at h
        · simp at h
        · simp at h
        · rename_i items s2 hcall
          simp only [] at h
          split at h
          · simp at h
          · rename_i hq2
            split at h
            · simp at h
            · rename_i c0 tail0
              rw [Prod.mk.injEq] at h
              obtain ⟨hfst, hsnd⟩ := h
              simp only [Except.ok.injEq, Option.some.injEq] at hfst
              rw [← hsnd]
              simp [hexh, can_make_request, hcanu, cacheLookup_set_get, hfst]

/-- Witness for the amended C7: replaying the population-time call against
its own produced cache returns the same channel. -/
theorem c7_cache_replay_witness :
    (get_channel_details upCache 1 "CH" 0
      { st0 with chanCache := (get_channel_details upCache 1 "CH" 0 st0).2.chanCache }).1 =
      .ok (some { chCH with hasStreaming := some true }) :=
  c7_cache_replay upCache 1 "CH" 0 st0 _ _ rfl

end StreamingArg
